import Mathlib

/-!
Verification of the hurricane-prediction game backend.

The definitions below are a shallow embedding of the repository's game
logic: the pure scoring math (`calculateDistance`, `calculateTrackScore`,
`calculateIntensityScore`), the game clock (`getCurrentStorm`,
`getActiveTimeframe`), the badge evaluator (`shouldAwardBadge`, `hasBadge`,
`awardBadge`), the scoring pass (`scorePredictions`), the derived user
statistics queries, and the prediction-submission endpoint handler.

JavaScript numbers are embedded as `ℝ` where the source computes with
`Math.exp`/trigonometry, and as `ℚ`/`ℤ` where the source only compares,
adds and divides (timestamps, coordinates, wind speeds, pressures), which
keeps those definitions executable. `Math.round` is `round` (both round
halves up). Database rows are lists of records; SQL `WHERE` clauses become
`List.filter`; `INSERT ... ON CONFLICT DO NOTHING` becomes insert-if-absent.
-/

namespace HurricaneGame

/-! ### Geo and scoring math (gameLogic.js / server.js) -/

/-- JavaScript `Math.atan2 y x`, the argument of the complex number `x + y*i`. -/
noncomputable def atan2 (y x : ℝ) : ℝ := Complex.arg ⟨x, y⟩

/-- Haversine great-circle distance in nautical miles (`calculateDistance`). -/
noncomputable def calculateDistance (lat1 lon1 lat2 lon2 : ℝ) : ℝ :=
  let R : ℝ := 3440.065
  let dLat := (lat2 - lat1) * Real.pi / 180
  let dLon := (lon2 - lon1) * Real.pi / 180
  let a := Real.sin (dLat / 2) * Real.sin (dLat / 2) +
    Real.cos (lat1 * Real.pi / 180) * Real.cos (lat2 * Real.pi / 180) *
    Real.sin (dLon / 2) * Real.sin (dLon / 2)
  let c := 2 * atan2 (Real.sqrt a) (Real.sqrt (1 - a))
  R * c

/-- The real-valued track score before rounding:
`const score = 1000 * Math.exp(-0.01 * distanceErrorNM)`. -/
noncomputable def trackScoreRaw (distanceErrorNM : ℝ) : ℝ :=
  1000 * Real.exp (-0.01 * distanceErrorNM)

/-- `calculateTrackScore`: `Math.round(Math.max(0, score))`. -/
noncomputable def calculateTrackScore (distanceErrorNM : ℝ) : ℤ :=
  round (max 0 (trackScoreRaw distanceErrorNM))

/-- Wind component of the intensity score:
`const windScore = 600 * Math.exp(-0.02 * Math.abs(windError))`. -/
noncomputable def windScoreRaw (windError : ℝ) : ℝ :=
  600 * Real.exp (-0.02 * |windError|)

/-- Pressure component of the intensity score:
`const pressureScore = 400 * Math.exp(-0.05 * Math.abs(pressureError))`. -/
noncomputable def pressureScoreRaw (pressureError : ℝ) : ℝ :=
  400 * Real.exp (-0.05 * |pressureError|)

/-- `calculateIntensityScore`: `Math.round(Math.max(0, windScore + pressureScore))`. -/
noncomputable def calculateIntensityScore (windError pressureError : ℝ) : ℤ :=
  round (max 0 (windScoreRaw windError + pressureScoreRaw pressureError))

/-! ### Helper lemmas about `round` -/

lemma round_le_round {x y : ℝ} (h : x ≤ y) : round x ≤ round y := by
  rw [round_eq, round_eq]
  exact Int.floor_mono (by linarith)

lemma round_nonneg {x : ℝ} (h : 0 ≤ x) : 0 ≤ round x := by
  rw [round_eq]
  exact Int.le_floor.mpr (by push_cast; linarith)

lemma round_thousand : round (1000 : ℝ) = 1000 := by
  rw [show (1000 : ℝ) = ((1000 : ℤ) : ℝ) by norm_num, round_intCast]

lemma round_max_eq_thousand {v : ℝ} (h₁ : 999.5 ≤ v) (h₂ : v ≤ 1000) :
    round (max 0 v) = 1000 := by
  rw [max_eq_right (by linarith), round_eq]
  refine Int.floor_eq_iff.mpr ⟨?_, ?_⟩ <;> push_cast <;> linarith

/-- C1: for every distance error `d ≥ 0`, `calculateTrackScore d` equals
`round (max 0 (1000 * e^(-0.01*d)))`; `calculateTrackScore 0 = 1000`; and the
result is an integer in `[0, 1000]`, never negative. -/
theorem calculateTrackScore_spec (d : ℝ) (hd : 0 ≤ d) :
    calculateTrackScore d = round (max 0 (1000 * Real.exp (-0.01 * d))) ∧
    calculateTrackScore 0 = 1000 ∧
    0 ≤ calculateTrackScore d ∧ calculateTrackScore d ≤ 1000 := by
  refine ⟨rfl, ?_, round_nonneg (le_max_left _ _), ?_⟩
  · have h : trackScoreRaw 0 = 1000 := by
      unfold trackScoreRaw
      norm_num
    unfold calculateTrackScore
    rw [h, max_eq_right (by norm_num), round_thousand]
  · have h1 : trackScoreRaw d ≤ 1000 := by
      have he : Real.exp (-0.01 * d) ≤ 1 := Real.exp_le_one_iff.mpr (by nlinarith)
      unfold trackScoreRaw
      nlinarith
    calc calculateTrackScore d ≤ round (1000 : ℝ) :=
          round_le_round (max_le (by norm_num) h1)
      _ = 1000 := round_thousand

/-- Witness for C1 at the concrete input `d = 0`. -/
theorem calculateTrackScore_spec_witness :
    calculateTrackScore 0 = round (max 0 (1000 * Real.exp (-0.01 * 0))) ∧
    calculateTrackScore 0 = 1000 ∧
    0 ≤ calculateTrackScore 0 ∧ calculateTrackScore 0 ≤ 1000 :=
  calculateTrackScore_spec 0 le_rfl

/-- C2: for every wind error `w` and pressure error `p`,
`calculateIntensityScore w p` equals
`round (max 0 (600*e^(-0.02*|w|) + 400*e^(-0.05*|p|)))`;
`calculateIntensityScore 0 0 = 1000`; the result is an integer in `[0, 1000]`;
and it is symmetric in the sign of each error component. -/
theorem calculateIntensityScore_spec (w p : ℝ) :
    calculateIntensityScore w p =
      round (max 0 (600 * Real.exp (-0.02 * |w|) + 400 * Real.exp (-0.05 * |p|))) ∧
    calculateIntensityScore 0 0 = 1000 ∧
    0 ≤ calculateIntensityScore w p ∧ calculateIntensityScore w p ≤ 1000 ∧
    calculateIntensityScore w p = calculateIntensityScore (-w) (-p) := by
  refine ⟨rfl, ?_, round_nonneg (le_max_left _ _), ?_, ?_⟩
  · have h : windScoreRaw 0 + pressureScoreRaw 0 = 1000 := by
      unfold windScoreRaw pressureScoreRaw
      norm_num
    unfold calculateIntensityScore
    rw [h, max_eq_right (by norm_num), round_thousand]
  · have hw : windScoreRaw w ≤ 600 := by
      have he : Real.exp (-0.02 * |w|) ≤ 1 :=
        Real.exp_le_one_iff.mpr (by nlinarith [abs_nonneg w])
      unfold windScoreRaw
      nlinarith
    have hp : pressureScoreRaw p ≤ 400 := by
      have he : Real.exp (-0.05 * |p|) ≤ 1 :=
        Real.exp_le_one_iff.mpr (by nlinarith [abs_nonneg p])
      unfold pressureScoreRaw
      nlinarith
    calc calculateIntensityScore w p ≤ round (1000 : ℝ) :=
          round_le_round (max_le (by norm_num) (by linarith))
      _ = 1000 := round_thousand
  · unfold calculateIntensityScore windScoreRaw pressureScoreRaw
    rw [abs_neg, abs_neg]

/-- C4 counterexample: at the error magnitude `e = 1/100 > 0` both
`calculateIntensityScore e 0` and `calculateIntensityScore 0 e` round to
1000, so the strict inequality claimed for every `e > 0` fails. -/
theorem intensity_asymmetry_counterexample :
    (0 : ℝ) < 1 / 100 ∧
    ¬ calculateIntensityScore (1 / 100) 0 > calculateIntensityScore 0 (1 / 100) := by
  have habs : |(1 / 100 : ℝ)| = 1 / 100 := abs_of_pos (by norm_num)
  have hzero : |(0 : ℝ)| = 0 := abs_zero
  have h1 : calculateIntensityScore (1 / 100) 0 = 1000 := by
    unfold calculateIntensityScore windScoreRaw pressureScoreRaw
    rw [habs, hzero]
    have hup : Real.exp (-0.02 * (1 / 100)) ≤ 1 := Real.exp_le_one_iff.mpr (by norm_num)
    have hlo : (1 : ℝ) + -0.02 * (1 / 100) ≤ Real.exp (-0.02 * (1 / 100)) := by
      have := Real.add_one_le_exp (-0.02 * (1 / 100))
      linarith
    apply round_max_eq_thousand <;> rw [show (-0.05 : ℝ) * 0 = 0 by ring, Real.exp_zero] <;>
      nlinarith
  have h2 : calculateIntensityScore 0 (1 / 100) = 1000 := by
    unfold calculateIntensityScore windScoreRaw pressureScoreRaw
    rw [habs, hzero]
    have hup : Real.exp (-0.05 * (1 / 100)) ≤ 1 := Real.exp_le_one_iff.mpr (by norm_num)
    have hlo : (1 : ℝ) + -0.05 * (1 / 100) ≤ Real.exp (-0.05 * (1 / 100)) := by
      have := Real.add_one_le_exp (-0.05 * (1 / 100))
      linarith
    apply round_max_eq_thousand <;> rw [show (-0.02 : ℝ) * 0 = 0 by ring, Real.exp_zero] <;>
      nlinarith
  exact ⟨by norm_num, by rw [h1, h2]; omega⟩

/-- C4 (amended): on the range `0 < e ≤ 25` a wind-only error scores at least
as high as an equal-magnitude pressure-only error,
`calculateIntensityScore e 0 ≥ calculateIntensityScore 0 e`; the strict
version fails because rounding can tie (see the counterexample), and the
direction even reverses for large `e`. -/
theorem intensity_wind_ge_pressure (e : ℝ) (h0 : 0 < e) (h25 : e ≤ 25) :
    calculateIntensityScore e 0 ≥ calculateIntensityScore 0 e := by
  have habs : |e| = e := abs_of_pos h0
  set u : ℝ := Real.exp (-0.01 * e) with hu
  have hu2 : Real.exp (-0.02 * e) = u ^ 2 := by
    rw [hu, ← Real.exp_nat_mul]
    congr 1
    push_cast
    ring
  have hu5 : Real.exp (-0.05 * e) = u ^ 5 := by
    rw [hu, ← Real.exp_nat_mul]
    congr 1
    push_cast
    ring
  have hu1 : u ≤ 1 := Real.exp_le_one_iff.mpr (by nlinarith)
  have hu34 : 3 / 4 ≤ u := by
    have h := Real.add_one_le_exp (-0.01 * e)
    rw [← hu] at h
    nlinarith
  have hpsi : 0 ≤ 2 * u ^ 4 + 2 * u ^ 3 + 2 * u ^ 2 - u - 1 := by
    nlinarith [sq_nonneg u, sq_nonneg (u - 3 / 4), sq_nonneg (u ^ 2 - u),
      mul_nonneg (sub_nonneg.mpr hu34) (sub_nonneg.mpr hu1)]
  have hkey : 600 * Real.exp (-0.02 * e) + 400 * Real.exp (-0.05 * e) * 0 + 400 ≥
      600 + 400 * Real.exp (-0.05 * e) := by
    rw [hu2, hu5]
    nlinarith [mul_nonneg (sub_nonneg.mpr hu1) hpsi]
  unfold calculateIntensityScore windScoreRaw pressureScoreRaw
  rw [habs, abs_zero]
  apply round_le_round
  apply max_le_max le_rfl
  rw [show (-0.02 : ℝ) * 0 = 0 by ring, show (-0.05 : ℝ) * 0 = 0 by ring, Real.exp_zero]
  nlinarith [hkey]

/-- Witness for the amended C4 at the concrete input `e = 1`. -/
theorem intensity_wind_ge_pressure_witness :
    calculateIntensityScore 1 0 ≥ calculateIntensityScore 0 1 :=
  intensity_wind_ge_pressure 1 one_pos (by norm_num)

/-- C5 counterexample: with `0 ≤ 1/100 < 2/100` both
`calculateTrackScore (1/100)` and `calculateTrackScore (2/100)` round to
1000, so the claimed strict decrease fails. -/
theorem trackScore_strict_counterexample :
    (0 : ℝ) ≤ 1 / 100 ∧ (1 / 100 : ℝ) < 2 / 100 ∧
    ¬ calculateTrackScore (1 / 100) > calculateTrackScore (2 / 100) := by
  have h1 : calculateTrackScore (1 / 100) = 1000 := by
    unfold calculateTrackScore trackScoreRaw
    have hup : Real.exp (-0.01 * (1 / 100)) ≤ 1 := Real.exp_le_one_iff.mpr (by norm_num)
    have hlo : (1 : ℝ) + -0.01 * (1 / 100) ≤ Real.exp (-0.01 * (1 / 100)) := by
      have := Real.add_one_le_exp (-0.01 * (1 / 100))
      linarith
    apply round_max_eq_thousand <;> nlinarith
  have h2 : calculateTrackScore (2 / 100) = 1000 := by
    unfold calculateTrackScore trackScoreRaw
    have hup : Real.exp (-0.01 * (2 / 100)) ≤ 1 := Real.exp_le_one_iff.mpr (by norm_num)
    have hlo : (1 : ℝ) + -0.01 * (2 / 100) ≤ Real.exp (-0.01 * (2 / 100)) := by
      have := Real.add_one_le_exp (-0.01 * (2 / 100))
      linarith
    apply round_max_eq_thousand <;> nlinarith
  exact ⟨by norm_num, by norm_num, by rw [h1, h2]; omega⟩

/-- C5 (amended): for `0 ≤ d₁ < d₂` the real-valued score
`1000 * e^(-0.01*d)` is strictly decreasing, and the rounded
`calculateTrackScore` is weakly decreasing; strictness is lost only to
rounding ties (see the counterexample). -/
theorem trackScore_decreasing (d₁ d₂ : ℝ) (_h0 : 0 ≤ d₁) (h : d₁ < d₂) :
    trackScoreRaw d₁ > trackScoreRaw d₂ ∧
    calculateTrackScore d₁ ≥ calculateTrackScore d₂ := by
  have hexp : Real.exp (-0.01 * d₂) < Real.exp (-0.01 * d₁) :=
    Real.exp_lt_exp.mpr (by nlinarith)
  constructor
  · unfold trackScoreRaw
    nlinarith
  · unfold calculateTrackScore
    apply round_le_round
    apply max_le_max le_rfl
    unfold trackScoreRaw
    nlinarith

/-- Witness for the amended C5 at the concrete inputs `d₁ = 0`, `d₂ = 1`. -/
theorem trackScore_decreasing_witness :
    trackScoreRaw 0 > trackScoreRaw 1 ∧
    calculateTrackScore 0 ≥ calculateTrackScore 1 :=
  trackScore_decreasing 0 1 le_rfl one_pos

/-! ### Game clock (`getCurrentStorm`, `getActiveTimeframe`) -/

/-- One checkpoint entry of a storm's `timeframes` array. -/
structure Timeframe where
  timeframe : String
  type : String
  lat : ℚ
  lon : ℚ
  windSpeed : ℤ
  pressure : ℤ
  deriving DecidableEq

/-- A storm schedule record. `timeframes` is `none` when the JavaScript
object has no `timeframes` field (or it is `null`/`undefined`); a present
array — even an empty one — is `some`, because a JavaScript array is always
truthy. -/
structure Storm where
  id : String
  gameStart : ℚ
  gameEnd : ℚ
  timeframes : Option (List Timeframe)
  deriving DecidableEq

/-- `getCurrentStorm`: first storm whose `[gameStart, gameEnd)` window
contains `now`, else the first storm as fallback, `none` on an empty list.
Timestamps are milliseconds since the epoch. -/
def getCurrentStorm (storms : List Storm) (now : ℚ) : Option Storm :=
  if storms.isEmpty then none
  else
    match storms.find? (fun s => decide (s.gameStart ≤ now) && decide (now < s.gameEnd)) with
    | some s => some s
    | none => storms.head?

/-- `getActiveTimeframe`: maps the hours elapsed since `gameStart` to the
currently open checkpoint label. The guard `if (!storm || !storm.timeframes)`
only short-circuits for a missing storm or a missing `timeframes` field. -/
def getActiveTimeframe (storm : Option Storm) (currentTime : ℚ) : Option String :=
  match storm with
  | none => none
  | some s =>
    match s.timeframes with
    | none => none
    | some _ =>
      let hoursSinceStart := (currentTime - s.gameStart) / (1000 * 60 * 60)
      if hoursSinceStart < 0 then none
      else if hoursSinceStart < 6 then some "0600"
      else if hoursSinceStart < 12 then some "1200"
      else if hoursSinceStart < 18 then some "1800"
      else if hoursSinceStart < 24 then some "0000"
      else none

lemma getActiveTimeframe_some_eq (s : Storm) (now : ℚ) :
    getActiveTimeframe (some s) now =
      match s.timeframes with
      | none => none
      | some _ =>
        if (now - s.gameStart) / (1000 * 60 * 60) < 0 then none
        else if (now - s.gameStart) / (1000 * 60 * 60) < 6 then some "0600"
        else if (now - s.gameStart) / (1000 * 60 * 60) < 12 then some "1200"
        else if (now - s.gameStart) / (1000 * 60 * 60) < 18 then some "1800"
        else if (now - s.gameStart) / (1000 * 60 * 60) < 24 then some "0000"
        else none := rfl

/-- A storm whose `timeframes` array is present but empty. -/
def emptyTimeframesStorm : Storm :=
  { id := "katrina-2005", gameStart := 0, gameEnd := 86400000, timeframes := some [] }

/-- C3 counterexample: a storm with an empty `timeframes` array has no
checkpoints, yet `getActiveTimeframe` does not return `null`: at
`now = gameStart` it returns `"0600"`, because an empty JavaScript array is
truthy and does not trigger the `!storm.timeframes` guard. -/
theorem getActiveTimeframe_empty_counterexample :
    emptyTimeframesStorm.timeframes = some [] ∧
    getActiveTimeframe (some emptyTimeframesStorm) 0 = some "0600" := by
  constructor
  · rfl
  · rw [getActiveTimeframe_some_eq]
    norm_num [emptyTimeframesStorm]

/-- C3 (amended): with `h` the hours elapsed since `gameStart`, the result
is `null` for `h < 0`, `"0600"` for `0 ≤ h < 6`, `"1200"` for `6 ≤ h < 12`,
`"1800"` for `12 ≤ h < 18`, `"0000"` for `18 ≤ h < 24` and `null` for
`h ≥ 24` (boundaries closed below, open above); a missing storm or a
missing/`null` `timeframes` field yields `null` unconditionally — but a
present, empty checkpoint array does not (see the counterexample). -/
theorem getActiveTimeframe_spec (s : Storm) (now : ℚ) :
    getActiveTimeframe none now = none ∧
    (s.timeframes = none → getActiveTimeframe (some s) now = none) ∧
    (s.timeframes.isSome →
      ((now - s.gameStart) / (1000 * 60 * 60) < 0 →
        getActiveTimeframe (some s) now = none) ∧
      (0 ≤ (now - s.gameStart) / (1000 * 60 * 60) →
        (now - s.gameStart) / (1000 * 60 * 60) < 6 →
        getActiveTimeframe (some s) now = some "0600") ∧
      (6 ≤ (now - s.gameStart) / (1000 * 60 * 60) →
        (now - s.gameStart) / (1000 * 60 * 60) < 12 →
        getActiveTimeframe (some s) now = some "1200") ∧
      (12 ≤ (now - s.gameStart) / (1000 * 60 * 60) →
        (now - s.gameStart) / (1000 * 60 * 60) < 18 →
        getActiveTimeframe (some s) now = some "1800") ∧
      (18 ≤ (now - s.gameStart) / (1000 * 60 * 60) →
        (now - s.gameStart) / (1000 * 60 * 60) < 24 →
        getActiveTimeframe (some s) now = some "0000") ∧
      (24 ≤ (now - s.gameStart) / (1000 * 60 * 60) →
        getActiveTimeframe (some s) now = none)) := by
  refine ⟨rfl, ?_, ?_⟩
  · intro h
    rw [getActiveTimeframe_some_eq, h]
  · intro hsome
    obtain ⟨tfs, htfs⟩ := Option.isSome_iff_exists.mp hsome
    rw [getActiveTimeframe_some_eq, htfs]
    refine ⟨?_, ?_, ?_, ?_, ?_, ?_⟩ <;> intros <;> split_ifs <;>
      first | rfl | linarith

/-- Witness for the amended C3: exactly at `h = 6` (six hours after
`gameStart`) the active checkpoint is `"1200"`, not `"0600"`. -/
theorem getActiveTimeframe_spec_witness :
    getActiveTimeframe (some emptyTimeframesStorm) (6 * (1000 * 60 * 60)) = some "1200" := by
  have h := (getActiveTimeframe_spec emptyTimeframesStorm (6 * (1000 * 60 * 60))).2.2
    (by decide)
  exact h.2.2.1 (by norm_num [emptyTimeframesStorm]) (by norm_num [emptyTimeframesStorm])

/-! ### Badge evaluator (`shouldAwardBadge`, `hasBadge`, `awardBadge`) -/

/-- The aggregate statistics consumed by `shouldAwardBadge` (the
destructured `stats` argument, each field defaulting to 0). -/
structure UserStats where
  totalPredictions : ℤ
  totalScore : ℤ
  uniqueStorms : ℤ
  currentScore : ℤ
  deriving DecidableEq

/-- `shouldAwardBadge` from gameLogic.js: the badge rule cascade. -/
def shouldAwardBadge (stats : UserStats) (badgeId : String) : Bool :=
  if badgeId = "first_prediction" ∧ stats.totalPredictions = 1 then true
  else if badgeId = "veteran_10" ∧ stats.totalPredictions = 10 then true
  else if badgeId = "veteran_50" ∧ stats.totalPredictions = 50 then true
  else if badgeId = "veteran_100" ∧ stats.totalPredictions = 100 then true
  else if badgeId = "veteran_500" ∧ stats.totalPredictions = 500 then true
  else if badgeId = "points_5k" ∧ stats.totalScore ≥ 5000 then true
  else if badgeId = "points_25k" ∧ stats.totalScore ≥ 25000 then true
  else if badgeId = "points_50k" ∧ stats.totalScore ≥ 50000 then true
  else if badgeId = "points_100k" ∧ stats.totalScore ≥ 100000 then true
  else if badgeId = "storm_survivor_5" ∧ stats.uniqueStorms = 5 then true
  else if badgeId = "storm_survivor_12" ∧ stats.uniqueStorms = 12 then true
  else if badgeId = "diamond_prediction" ∧ stats.currentScore ≥ 1900 then true
  else if badgeId = "oracle" ∧ stats.currentScore ≥ 1950 then true
  else if badgeId = "perfect_storm" ∧ stats.currentScore = 2000 then true
  else if badgeId = "lucky_number" ∧ (toString stats.currentScore).endsWith "777" then true
  else false

/-- C6: count-based milestone badges fire only on exact equality
(`first_prediction` at exactly 1, `veteran_*` at exactly 10/50/100/500,
`storm_survivor_*` at exactly 5/12) while cumulative-point badges fire
on-or-above the threshold (`points_*` at ≥ 5000/25000/50000/100000). -/
theorem shouldAwardBadge_thresholds (stats : UserStats) :
    (shouldAwardBadge stats "first_prediction" = true ↔ stats.totalPredictions = 1) ∧
    (shouldAwardBadge stats "veteran_10" = true ↔ stats.totalPredictions = 10) ∧
    (shouldAwardBadge stats "veteran_50" = true ↔ stats.totalPredictions = 50) ∧
    (shouldAwardBadge stats "veteran_100" = true ↔ stats.totalPredictions = 100) ∧
    (shouldAwardBadge stats "veteran_500" = true ↔ stats.totalPredictions = 500) ∧
    (shouldAwardBadge stats "storm_survivor_5" = true ↔ stats.uniqueStorms = 5) ∧
    (shouldAwardBadge stats "storm_survivor_12" = true ↔ stats.uniqueStorms = 12) ∧
    (shouldAwardBadge stats "points_5k" = true ↔ stats.totalScore ≥ 5000) ∧
    (shouldAwardBadge stats "points_25k" = true ↔ stats.totalScore ≥ 25000) ∧
    (shouldAwardBadge stats "points_50k" = true ↔ stats.totalScore ≥ 50000) ∧
    (shouldAwardBadge stats "points_100k" = true ↔ stats.totalScore ≥ 100000) := by
  unfold shouldAwardBadge
  norm_num
  simp +decide

/-- A `user_badges` row: `(username, badge_id)` carries a UNIQUE constraint. -/
structure UserBadge where
  username : String
  badge_id : String
  metadata : String
  deriving DecidableEq

/-- `hasBadge`: `SELECT 1 FROM user_badges WHERE username = $1 AND badge_id = $2`,
true iff a matching row exists. -/
def hasBadge (userBadges : List UserBadge) (username badgeId : String) : Bool :=
  userBadges.any (fun r => r.username == username && r.badge_id == badgeId)

/-- `awardBadge`: `INSERT INTO user_badges ... ON CONFLICT (username, badge_id)
DO NOTHING` — insert-if-absent keyed on the unique pair. -/
def awardBadge (userBadges : List UserBadge) (username badgeId metadata : String) :
    List UserBadge :=
  if hasBadge userBadges username badgeId then userBadges
  else userBadges ++ [⟨username, badgeId, metadata⟩]

/-- A sequence of award attempts `(username, badgeId, metadata)` applied in order. -/
def applyAwards (userBadges : List UserBadge) (ops : List (String × String × String)) :
    List UserBadge :=
  ops.foldl (fun st op => awardBadge st op.1 op.2.1 op.2.2) userBadges

/-- The `(username, badge_id)` uniqueness invariant of the `user_badges` table. -/
def BadgeKeysUnique (userBadges : List UserBadge) : Prop :=
  userBadges.Pairwise (fun r₁ r₂ => ¬(r₁.username = r₂.username ∧ r₁.badge_id = r₂.badge_id))

/-- Number of `user_badges` rows for one `(username, badge_id)` pair. -/
def countBadgeRecords (userBadges : List UserBadge) (username badgeId : String) : ℕ :=
  userBadges.countP (fun r => r.username == username && r.badge_id == badgeId)

lemma awardBadge_keysUnique {s : List UserBadge} (hs : BadgeKeysUnique s)
    (u b m : String) : BadgeKeysUnique (awardBadge s u b m) := by
  unfold awardBadge
  split_ifs with h
  · exact hs
  · unfold BadgeKeysUnique
    rw [List.pairwise_append]
    refine ⟨hs, List.pairwise_singleton _ _, ?_⟩
    intro r hr r' hr'
    rw [List.mem_singleton] at hr'
    subst hr'
    simp only [hasBadge, List.any_eq_true, Bool.and_eq_true, beq_iff_eq] at h
    push_neg at h
    intro hkey
    exact absurd hkey.2 (h r hr hkey.1)

lemma applyAwards_keysUnique {s : List UserBadge} (hs : BadgeKeysUnique s)
    (ops : List (String × String × String)) : BadgeKeysUnique (applyAwards s ops) := by
  induction ops generalizing s with
  | nil => exact hs
  | cons op ops ih => exact ih (awardBadge_keysUnique hs op.1 op.2.1 op.2.2)

lemma keysUnique_count_le_one {s : List UserBadge} (hs : BadgeKeysUnique s)
    (u b : String) : countBadgeRecords s u b ≤ 1 := by
  induction s with
  | nil => simp [countBadgeRecords]
  | cons r t ih =>
    have hs' : BadgeKeysUnique t := (List.pairwise_cons.mp hs).2
    have hhead := (List.pairwise_cons.mp hs).1
    unfold countBadgeRecords at ih ⊢
    rw [List.countP_cons]
    by_cases hr : (r.username == u && r.badge_id == b) = true
    · have hzero : t.countP (fun x => x.username == u && x.badge_id == b) = 0 := by
        rw [List.countP_eq_zero]
        intro r' hr' hmatch
        simp only [Bool.and_eq_true, beq_iff_eq] at hr hmatch
        exact hhead r' hr' ⟨hr.1.trans hmatch.1.symm, hr.2.trans hmatch.2.symm⟩
      rw [hzero, hr]
      norm_num
    · rw [Bool.not_eq_true] at hr
      rw [hr]
      simpa using ih hs'

/-- C7: badge awarding is idempotent — starting from a `user_badges` state
satisfying the unique-key invariant, any sequence of award attempts leaves at
most one record per `(username, badgeId)` pair, and awarding a badge the user
already holds leaves the state unchanged. -/
theorem badge_award_idempotent (s : List UserBadge)
    (ops : List (String × String × String)) (u b m u' b' : String) :
    (BadgeKeysUnique s → countBadgeRecords (applyAwards s ops) u' b' ≤ 1) ∧
    (hasBadge s u b = true → awardBadge s u b m = s) := by
  constructor
  · intro hs
    exact keysUnique_count_le_one (applyAwards_keysUnique hs ops) u' b'
  · intro h
    unfold awardBadge
    rw [h]
    rfl

/-- Witness for C7: a user already holding `first_prediction` is re-awarded
it once via `applyAwards` and once directly; the record count stays 1 and the
direct re-award is a no-op. -/
theorem badge_award_idempotent_witness :
    countBadgeRecords
      (applyAwards [⟨"alice", "first_prediction", "{}"⟩]
        [("alice", "first_prediction", "{}")]) "alice" "first_prediction" ≤ 1 ∧
    awardBadge [⟨"alice", "first_prediction", "{}"⟩] "alice" "first_prediction" "{}" =
      [⟨"alice", "first_prediction", "{}"⟩] := by
  have h := badge_award_idempotent [⟨"alice", "first_prediction", "{}"⟩]
    [("alice", "first_prediction", "{}")] "alice" "first_prediction" "{}"
    "alice" "first_prediction"
  exact ⟨h.1 (List.pairwise_singleton _ _), h.2 (by decide)⟩

/-! ### Scoring pass (`scorePredictions` in server.js) -/

/-- One row of the `predictions` table. Coordinates are `DECIMAL` columns
(exact rationals), wind/pressure and `score` are `INTEGER` columns; the
`actual_*` and `score` columns are nullable. -/
structure PredRow where
  id : ℕ
  username : String
  storm_id : String
  timeframe : String
  predicted_lat : ℚ
  predicted_lon : ℚ
  predicted_wind_speed : ℤ
  predicted_pressure : ℤ
  actual_lat : Option ℚ
  actual_lon : Option ℚ
  actual_wind_speed : Option ℤ
  actual_pressure : Option ℤ
  score : Option ℤ
  deriving DecidableEq

/-- The `actualData` checkpoint record a batch is scored against. -/
structure ActualData where
  lat : ℚ
  lon : ℚ
  windSpeed : ℤ
  pressure : ℤ
  deriving DecidableEq

/-- The per-row score computed inside the `scorePredictions` loop:
distance error, absolute wind/pressure errors, then track + intensity. -/
noncomputable def scoreRow (pred : PredRow) (actualData : ActualData) : ℤ :=
  let distanceError := calculateDistance (pred.predicted_lat : ℝ) (pred.predicted_lon : ℝ)
    (actualData.lat : ℝ) (actualData.lon : ℝ)
  let windError : ℤ := |pred.predicted_wind_speed - actualData.windSpeed|
  let pressureError : ℤ := |pred.predicted_pressure - actualData.pressure|
  calculateTrackScore distanceError +
    calculateIntensityScore (windError : ℝ) (pressureError : ℝ)

/-- The `UPDATE predictions SET score = ..., actual_* = ... WHERE id = $6`
statement, applied to the whole table. -/
def updateRow (db : List PredRow) (rowId : ℕ) (newScore : ℤ) (actualData : ActualData) :
    List PredRow :=
  db.map (fun r =>
    if r.id = rowId then
      { r with
        score := some newScore
        actual_lat := some actualData.lat
        actual_lon := some actualData.lon
        actual_wind_speed := some actualData.windSpeed
        actual_pressure := some actualData.pressure }
    else r)

/-- The `for (const pred of predictions.rows)` loop. `failingIds` lists the
rows whose `UPDATE` throws; because the `try { ... } catch` wraps the whole
loop, the first failing update aborts the loop and the function returns with
the database as it stands at that point. -/
noncomputable def scoreLoop (db : List PredRow) (rows : List PredRow)
    (actualData : ActualData) (failingIds : List ℕ) : List PredRow :=
  match rows with
  | [] => db
  | pred :: rest =>
    if pred.id ∈ failingIds then db
    else scoreLoop (updateRow db pred.id (scoreRow pred actualData) actualData)
      rest actualData failingIds

/-- The `WHERE storm_id = $1 AND timeframe = $2 AND score IS NULL` filter. -/
def matchesBatch (stormId timeframe : String) (p : PredRow) : Bool :=
  p.storm_id == stormId && p.timeframe == timeframe && p.score.isNone

/-- `scorePredictions stormId timeframe actualData`: select the unscored
batch, then run the scoring loop over its rows. -/
noncomputable def scorePredictions (db : List PredRow) (stormId timeframe : String)
    (actualData : ActualData) (failingIds : List ℕ) : List PredRow :=
  scoreLoop db (db.filter (matchesBatch stormId timeframe)) actualData failingIds

lemma updateRow_src {db : List PredRow} {rowId : ℕ} {sc : ℤ} {act : ActualData}
    {r' : PredRow} (h : r' ∈ updateRow db rowId sc act) :
    ∃ r ∈ db, r.id = r'.id ∧ r.storm_id = r'.storm_id ∧ r.timeframe = r'.timeframe ∧
      (r.score.isSome → r'.score.isSome) ∧ (r'.id = rowId → r'.score.isSome) := by
  unfold updateRow at h
  obtain ⟨r, hr, hmap⟩ := List.mem_map.mp h
  refine ⟨r, hr, ?_⟩
  by_cases hid : r.id = rowId
  · rw [if_pos hid] at hmap
    subst hmap
    exact ⟨rfl, rfl, rfl, fun _ => rfl, fun _ => rfl⟩
  · rw [if_neg hid] at hmap
    subst hmap
    exact ⟨rfl, rfl, rfl, fun h => h, fun h => absurd h hid⟩

lemma scoreLoop_src {rows : List PredRow} {db : List PredRow} {act : ActualData}
    {fs : List ℕ} {r' : PredRow} (h : r' ∈ scoreLoop db rows act fs) :
    ∃ r ∈ db, r.id = r'.id ∧ r.storm_id = r'.storm_id ∧ r.timeframe = r'.timeframe ∧
      (r.score.isSome → r'.score.isSome) := by
  induction rows generalizing db with
  | nil =>
    exact ⟨r', h, rfl, rfl, rfl, fun h => h⟩
  | cons pred rest ih =>
    unfold scoreLoop at h
    split_ifs at h with hfail
    · exact ⟨r', h, rfl, rfl, rfl, fun h => h⟩
    · obtain ⟨r₁, hr₁, hid₁, hs₁, ht₁, hsome₁⟩ := ih h
      obtain ⟨r, hr, hid, hs, ht, hsome, _⟩ := updateRow_src hr₁
      exact ⟨r, hr, hid.trans hid₁, hs.trans hs₁, ht.trans ht₁,
        fun hh => hsome₁ (hsome hh)⟩

lemma scoreLoop_scores_ids {rows : List PredRow} {db : List PredRow}
    {act : ActualData} {r' : PredRow} (h : r' ∈ scoreLoop db rows act [])
    (hid : r'.id ∈ rows.map (fun p => p.id)) : r'.score.isSome := by
  induction rows generalizing db with
  | nil => simp at hid
  | cons pred rest ih =>
    unfold scoreLoop at h
    rw [if_neg (List.not_mem_nil pred.id)] at h
    rw [List.map_cons, List.mem_cons] at hid
    rcases hid with hid | hid
    · obtain ⟨r₁, hr₁, hid₁, _, _, hsome₁⟩ := scoreLoop_src h
      obtain ⟨r, _, _, _, _, _, hupd⟩ := updateRow_src hr₁
      exact hsome₁ (hupd (hid₁.trans hid))
    · exact ih h hid

/-- The two example rows used in the counterexamples and witnesses below. -/
def predRow1 : PredRow :=
  { id := 1, username := "testuser1", storm_id := "katrina-2005", timeframe := "0600",
    predicted_lat := 26, predicted_lon := -81.4, predicted_wind_speed := 98,
    predicted_pressure := 962, actual_lat := none, actual_lon := none,
    actual_wind_speed := none, actual_pressure := none, score := none }

/-- A second unscored row of the same batch, with a distinct id. -/
def predRow2 : PredRow :=
  { predRow1 with id := 2, username := "testuser2" }

/-- The `"0600"` checkpoint truth the example batch is scored against. -/
def exActual : ActualData :=
  { lat := 26.1, lon := -81.5, windSpeed := 100, pressure := 960 }

/-- C8 counterexample: in a batch of two unscored rows, the first row's
update fails (`failingIds = [1]`) while the second row's own update would
succeed (`2 ∉ [1]`); the exception aborts the whole loop, the database is
returned unchanged, and the second row's score stays `NULL`. -/
theorem scorePredictions_abort_counterexample :
    scorePredictions [predRow1, predRow2] "katrina-2005" "0600" exActual [1] =
      [predRow1, predRow2] ∧
    predRow2.score = none ∧ (2 : ℕ) ∉ [1] := by
  refine ⟨?_, rfl, by decide⟩
  rfl

/-- C8 (amended): one failing row update aborts the remaining rows of that
batch — at the first failing row the loop returns the database as it stands,
so later rows are left unscored; recovery relies on re-running: because the
batch filter keeps only `score IS NULL` rows, a re-run with no failures
leaves every row of the `(stormId, timeframe)` batch scored. -/
theorem scorePredictions_failure_semantics (db : List PredRow) (act : ActualData)
    (failingIds : List ℕ) (pred : PredRow) (rest : List PredRow)
    (stormId timeframe : String) (r : PredRow) :
    (pred.id ∈ failingIds → scoreLoop db (pred :: rest) act failingIds = db) ∧
    (r ∈ scorePredictions db stormId timeframe act [] →
      r.storm_id = stormId → r.timeframe = timeframe → r.score.isSome) := by
  constructor
  · intro h
    unfold scoreLoop
    rw [if_pos h]
  · intro hmem hs ht
    obtain ⟨r₀, hr₀, hid₀, hs₀, ht₀, hsome₀⟩ := scoreLoop_src hmem
    by_cases hscored : r₀.score.isSome
    · exact hsome₀ hscored
    · apply scoreLoop_scores_ids hmem
      rw [← hid₀]
      apply List.mem_map_of_mem
      rw [List.mem_filter]
      refine ⟨hr₀, ?_⟩
      unfold matchesBatch
      rw [hs₀, ht₀, hs, ht]
      simp only [Option.isNone_iff_eq_none, Bool.and_eq_true, beq_self_eq_true, true_and]
      exact Option.not_isSome_iff_eq_none.mp hscored

/-- The second example row after a clean scoring pass over `[predRow2]`. -/
noncomputable def scoredRow2 : PredRow :=
  { predRow2 with
    score := some (scoreRow predRow2 exActual)
    actual_lat := some exActual.lat
    actual_lon := some exActual.lon
    actual_wind_speed := some exActual.windSpeed
    actual_pressure := some exActual.pressure }

/-- Witness for the amended C8: a failing first row returns the database
unchanged, and after a clean pass the scored row carries a non-null score. -/
theorem scorePredictions_failure_semantics_witness :
    scoreLoop [predRow2] [predRow1] exActual [1] = [predRow2] ∧
    scoredRow2.score.isSome := by
  have hres : scorePredictions [predRow2] "katrina-2005" "0600" exActual [] =
      [scoredRow2] := rfl
  have h := scorePredictions_failure_semantics [predRow2] exActual [1] predRow1 []
    "katrina-2005" "0600" scoredRow2
  refine ⟨h.1 (by decide), ?_⟩
  exact h.2 (hres ▸ List.mem_singleton_self scoredRow2) rfl rfl

/-! ### Derived user statistics (badge evaluator query and badge-progress query) -/

/-- The aggregate row `(total_predictions, total_score, unique_storms)`. -/
@[ext]
structure StatsRow where
  total_predictions : ℕ
  total_score : ℤ
  unique_storms : ℕ
  deriving DecidableEq

/-- The stats query inside `checkAndAwardBadges`:
`SELECT COUNT(*), SUM(COALESCE(score, 0)), COUNT(DISTINCT storm_id)
FROM predictions WHERE username = $1 AND score IS NOT NULL`. -/
def evaluatorStats (db : List PredRow) (username : String) : StatsRow :=
  let rows := db.filter (fun p => p.username == username && p.score.isSome)
  { total_predictions := rows.length
    total_score := (rows.map (fun p => p.score.getD 0)).sum
    unique_storms := (rows.map (fun p => p.storm_id)).dedup.length }

/-- The stats query of `GET /api/user/:username/badge-progress`:
the same aggregates but `WHERE username = $1` only — no
`score IS NOT NULL` filter. -/
def badgeProgressStats (db : List PredRow) (username : String) : StatsRow :=
  let rows := db.filter (fun p => p.username == username)
  { total_predictions := rows.length
    total_score := (rows.map (fun p => p.score.getD 0)).sum
    unique_storms := (rows.map (fun p => p.storm_id)).dedup.length }

/-- Modelled from the spec: `UserStats` as "aggregate over a user's scored
Predictions" — count, sum of the (present) scores, and the number of
distinct storm ids among the user's scored predictions. -/
def specUserStats (db : List PredRow) (username : String) : StatsRow :=
  let scored := db.filter (fun p => p.username == username && p.score.isSome)
  { total_predictions := scored.length
    total_score := (scored.filterMap (fun p => p.score)).sum
    unique_storms := ((scored.map (fun p => p.storm_id)).toFinset).card }

/-- Aggregate over all of a user's predictions, scored or not, with a null
score contributing 0 — what the badge-progress query actually computes. -/
def specAllStats (db : List PredRow) (username : String) : StatsRow :=
  { total_predictions := db.countP (fun p => p.username == username)
    total_score :=
      ((db.filter (fun p => p.username == username)).map (fun p => p.score.getD 0)).sum
    unique_storms :=
      (((db.filter (fun p => p.username == username)).map (fun p => p.storm_id)).toFinset).card }

/-- An unscored prediction row by a third user. -/
def unscoredRow : PredRow :=
  { predRow1 with id := 3, username := "carol", score := none }

/-- C9 counterexample: with a single unscored prediction on file, the
badge-progress stats count it (`total_predictions = 1`) while the aggregate
over scored predictions is empty (`total_predictions = 0`) — the progress
query does not restrict to scored rows. -/
theorem badgeProgress_counts_unscored :
    unscoredRow.score = none ∧
    (badgeProgressStats [unscoredRow] "carol").total_predictions = 1 ∧
    (specUserStats [unscoredRow] "carol").total_predictions = 0 := by
  refine ⟨rfl, ?_, ?_⟩ <;> rfl

lemma sum_getD_eq_sum_filterMap (l : List PredRow) (h : ∀ p ∈ l, p.score.isSome) :
    (l.map (fun p => p.score.getD 0)).sum = (l.filterMap (fun p => p.score)).sum := by
  induction l with
  | nil => rfl
  | cons p t ih =>
    have hp := h p (List.mem_cons_self p t)
    obtain ⟨v, hv⟩ := Option.isSome_iff_exists.mp hp
    rw [List.map_cons, List.filterMap_cons, hv]
    simp only [List.sum_cons, Option.getD_some]
    rw [ih (fun q hq => h q (List.mem_cons_of_mem p hq))]

/-- C9 (amended): the stats driving the badge evaluator
(`checkAndAwardBadges`) aggregate exclusively the user's scored predictions,
matching the spec's `UserStats`; the badge-progress endpoint instead
aggregates all of the user's predictions — an unscored row increments its
prediction and storm counts and contributes 0 points (see the
counterexample). -/
theorem userStats_aggregation (db : List PredRow) (username : String) :
    evaluatorStats db username = specUserStats db username ∧
    badgeProgressStats db username = specAllStats db username := by
  constructor
  · unfold evaluatorStats specUserStats
    refine StatsRow.ext rfl ?_ ?_ <;> dsimp only
    · apply sum_getD_eq_sum_filterMap
      intro p hp
      have := (List.mem_filter.mp hp).2
      rw [Bool.and_eq_true] at this
      exact this.2
    · rw [List.card_toFinset]
  · unfold badgeProgressStats specAllStats
    refine StatsRow.ext ?_ rfl ?_ <;> dsimp only
    · rw [List.countP_eq_length_filter]
    · rw [List.card_toFinset]

/-! ### Prediction submission endpoint (`POST /api/predictions`) -/

/-- The JSON body of a `POST /api/predictions` request, all seven fields
present. JavaScript strings are falsy exactly when empty; numbers are falsy
exactly when zero. -/
structure PredictionBody where
  username : String
  stormId : String
  timeframe : String
  lat : ℚ
  lon : ℚ
  windSpeed : ℤ
  pressure : ℤ
  deriving DecidableEq

/-- The handler's outcome: a 4xx rejection with its message, or 201 Created. -/
inductive ApiResponse where
  | badRequest (message : String)
  | created
  deriving DecidableEq

/-- The row inserted by the handler: predicted values from the body, `score`
and `actual_*` columns NULL. -/
def newPredRow (nextId : ℕ) (body : PredictionBody) : PredRow :=
  { id := nextId, username := body.username, storm_id := body.stormId,
    timeframe := body.timeframe, predicted_lat := body.lat, predicted_lon := body.lon,
    predicted_wind_speed := body.windSpeed, predicted_pressure := body.pressure,
    actual_lat := none, actual_lon := none, actual_wind_speed := none,
    actual_pressure := none, score := none }

/-- The `POST /api/predictions` handler: truthiness check on the seven
fields, active-storm check, active-timeframe check, duplicate check (the
`UNIQUE(username, storm_id, timeframe)` constraint surfaced as a 400), then
the insert. -/
def postPredictions (storms : List Storm) (now : ℚ) (db : List PredRow)
    (body : PredictionBody) : ApiResponse × List PredRow :=
  if body.username = "" ∨ body.stormId = "" ∨ body.timeframe = "" ∨
      body.lat = 0 ∨ body.lon = 0 ∨ body.windSpeed = 0 ∨ body.pressure = 0 then
    (.badRequest "Missing required fields", db)
  else
    match getCurrentStorm storms now with
    | none => (.badRequest "Storm not active", db)
    | some currentStorm =>
      if currentStorm.id ≠ body.stormId then (.badRequest "Storm not active", db)
      else if getActiveTimeframe (some currentStorm) now ≠ some body.timeframe then
        (.badRequest ("Timeframe " ++ body.timeframe ++ " is not currently active"), db)
      else if db.any (fun p => p.username == body.username &&
          p.storm_id == body.stormId && p.timeframe == body.timeframe) then
        (.badRequest "You have already submitted a prediction for this timeframe", db)
      else
        (.created, db ++ [newPredRow db.length body])

/-- C10: a request whose seven fields are all present but whose `lat`,
`lon`, `windSpeed` or `pressure` is the number 0 (or whose `username`,
`stormId` or `timeframe` is the empty string) is rejected with 400
"Missing required fields" and no prediction row is created — the truthiness
check cannot distinguish a legitimate zero from a missing field. -/
theorem postPredictions_zero_is_missing (storms : List Storm) (now : ℚ)
    (db : List PredRow) (body : PredictionBody)
    (h : body.username = "" ∨ body.stormId = "" ∨ body.timeframe = "" ∨
      body.lat = 0 ∨ body.lon = 0 ∨ body.windSpeed = 0 ∨ body.pressure = 0) :
    postPredictions storms now db body = (.badRequest "Missing required fields", db) := by
  unfold postPredictions
  rw [if_pos h]

/-- Witness for C10: a fully-populated body whose latitude is the equator
(`lat = 0`) is rejected as missing, leaving the database unchanged. -/
theorem postPredictions_zero_is_missing_witness :
    postPredictions [emptyTimeframesStorm] 0 []
      { username := "testuser", stormId := "katrina-2005", timeframe := "0600",
        lat := 0, lon := -81.5, windSpeed := 100, pressure := 960 } =
      (.badRequest "Missing required fields", []) :=
  postPredictions_zero_is_missing [emptyTimeframesStorm] 0 [] _
    (Or.inr (Or.inr (Or.inr (Or.inl rfl))))

end HurricaneGame
